import Mathlib

/-!
# Verification of the sick-fits GraphQL backend resolvers

A shallow embedding of the custom resolvers (`Mutations` and `Query`) of the
sick-fits backend.  The persistent store (Prisma) is modelled as an explicit
record of entity lists; each resolver becomes a function from the request
context and the store to a result paired with the successor store.  Thrown JS
errors become `Except.error` carrying the thrown message; a JS `TypeError`
crash (reading a field of `null`/`undefined`) is modelled as the error string
`"TypeError"`.  External collaborators are parameters: the payment gateway is a
function from (amount, currency, source) to a charge or an error, the bcrypt
hash is a function parameter, the current time and the random reset token are
explicit arguments, and the outbound email transport (which has no effect on
the store) is omitted.  Money amounts, prices and quantities are `Int`,
matching JS numbers on the integer minor-currency-unit values used here.
-/

/-- A stored user row: id, unique email, password hash, permission labels,
and the optional reset-token value and expiry timestamp (ms). -/
structure User where
  id : Nat
  email : String
  password : String
  permissions : List String
  resetToken : Option String
  resetTokenExpiry : Option Int
deriving DecidableEq, Repr

/-- A stored item row, owned by the user who created it. -/
structure Item where
  id : Nat
  title : String
  price : Int
  description : String
  image : String
  largeImage : String
  userId : Nat
deriving DecidableEq, Repr

/-- A cart row linking a user to an item with a quantity. -/
structure CartItem where
  id : Nat
  userId : Nat
  itemId : Nat
  quantity : Int
deriving DecidableEq, Repr

/-- A denormalized order line: a copy of the item's fields plus the quantity,
with the live item's id stripped (`delete orderItem.id` in `createOrder`). -/
structure OrderItem where
  title : String
  price : Int
  description : String
  image : String
  largeImage : String
  quantity : Int
  userId : Nat
deriving DecidableEq, Repr

/-- A stored order: the gateway's captured amount as `total`, the opaque
charge id, and the snapshot lines. -/
structure Order where
  id : Nat
  total : Int
  charge : String
  items : List OrderItem
  userId : Nat
deriving DecidableEq, Repr

/-- The payment gateway's response to `stripe.charges.create`. -/
structure Charge where
  id : String
  amount : Int
deriving DecidableEq, Repr

/-- The persistent store: lists of entity rows plus a counter supplying
fresh ids for created rows. -/
structure Store where
  users : List User
  items : List Item
  cartItems : List CartItem
  orders : List Order
  nextId : Nat
deriving DecidableEq, Repr

/-- The request context as populated by the server middleware: the userId
decoded from the session cookie, and the user row loaded for it.  Both are
absent on an unauthenticated request. -/
structure Ctx where
  userId? : Option Nat
  user? : Option User
deriving DecidableEq, Repr

/-- The optional update fields accepted by `updateItem` (everything in `args`
except `id`). -/
structure ItemUpdates where
  title : Option String := none
  description : Option String := none
  price : Option Int := none
  image : Option String := none
  largeImage : Option String := none
deriving DecidableEq, Repr

/-- `true` on `Except.ok`, `false` on `Except.error`. -/
def exceptOk : Except String α → Bool
  | .ok _ => true
  | .error _ => false

/-- Modelled from the spec: the permission evaluator `hasPermission` is
imported from `utils.js`, which is not among the provided sources.  Per the
spec (§4.2 Permission Evaluator), the actor is authorized iff the intersection
of the actor's permission set and the required any-of set is non-empty
("any-of", not "all-of"); otherwise a Forbidden error is thrown. -/
def hasPermission (user : User) (permissionsNeeded : List String) : Except String Unit :=
  if user.permissions.any (fun p => permissionsNeeded.contains p) then .ok ()
  else .error "You do not have sufficient permissions"

namespace Mutations

/-- `createItem`: requires a session, then creates an item connected to the
current user.  The fresh row takes the store's next id. -/
def createItem (ctx : Ctx) (title description image largeImage : String)
    (price : Int) (st : Store) : Except String Item × Store :=
  match ctx.userId? with
  | none => (.error "You need to login", st)
  | some uid =>
    let item : Item :=
      { id := st.nextId, title := title, price := price, description := description,
        image := image, largeImage := largeImage, userId := uid }
    (.ok item, { st with items := st.items ++ [item], nextId := st.nextId + 1 })

/-- Applies the non-`id` update fields to an item row (the spread of `args`
minus `id` passed as `data` to the store's update). -/
def applyUpdates (upd : ItemUpdates) (it : Item) : Item :=
  { it with
    title := upd.title.getD it.title,
    description := upd.description.getD it.description,
    price := upd.price.getD it.price,
    image := upd.image.getD it.image,
    largeImage := upd.largeImage.getD it.largeImage }

/-- `updateItem`: copies `args`, drops `id`, and hands the rest to the store's
update keyed by `id`.  The resolver reads nothing from `ctx.request`; the
context argument is kept to show it is ignored.  The store rejects an update
of an absent row (Prisma throws), modelled as an error. -/
def updateItem (_ctx : Ctx) (itemId : Nat) (upd : ItemUpdates) (st : Store) :
    Except String Item × Store :=
  match st.items.find? (fun it => it.id == itemId) with
  | none => (.error "Item not found", st)
  | some it =>
    let it' := applyUpdates upd it
    (.ok it', { st with items := st.items.map (fun j => if j.id == itemId then it' else j) })

/-- `deleteItem`: loads the item with its owner, computes `ownsItem` from the
session userId and `hasPermissions` from `ctx.request.user.permissions` (a
`TypeError` crash when the request user is absent, since that line runs before
the authorization `if`), and deletes unless both checks fail. -/
def deleteItem (ctx : Ctx) (itemId : Nat) (st : Store) : Except String Item × Store :=
  match st.items.find? (fun it => it.id == itemId) with
  | none => (.error "TypeError", st)
  | some item =>
    match ctx.user? with
    | none => (.error "TypeError", st)
    | some cu =>
      let ownsItem : Bool := ctx.userId? == some item.userId
      let hasPermissions : Bool :=
        cu.permissions.any (fun permission => ["ADMIN", "ITEMDELETE"].contains permission)
      if !ownsItem && !hasPermissions then
        (.error "You don't have permissions", st)
      else
        (.ok item, { st with items := st.items.filter (fun it => !(it.id == itemId)) })

/-- `requestReset`: looks the user up by the email exactly as supplied, throws
not-found when absent, otherwise stores the supplied random token with expiry
`now + 3600000` ms on the user row keyed by that email.  The outbound email
send has no effect on the store and is omitted. -/
def requestReset (email resetToken : String) (now : Int) (st : Store) :
    Except String String × Store :=
  match st.users.find? (fun u => u.email == email) with
  | none => (.error ("No such user found for email " ++ email), st)
  | some _user =>
    let expiry := now + 3600000
    let st' :=
      { st with users := st.users.map (fun u =>
          if u.email == email then
            { u with resetToken := some resetToken, resetTokenExpiry := some expiry }
          else u) }
    (.ok "Reset sent!", st')

/-- The user filter used by `resetPassword`: exact reset-token match and
`resetTokenExpiry_gte: Date.now() - 3600000` (a null expiry matches nothing). -/
def resetTokenMatches (token : String) (now : Int) (u : User) : Bool :=
  u.resetToken == some token &&
    (match u.resetTokenExpiry with
     | some e => decide (now - 3600000 ≤ e)
     | none => false)

/-- `resetPassword`: rejects a password/confirmation mismatch first, then looks
for a user by reset token with expiry ≥ now − 1 hour, hashes the new password
and clears both token fields on that user's row.  The session-cookie issuance
(`generateJWT`) has no store effect and is omitted. -/
def resetPassword (resetToken password confirmPassword : String)
    (hash : String → String) (now : Int) (st : Store) : Except String User × Store :=
  if password ≠ confirmPassword then
    (.error "Passwords don't match!", st)
  else
    match st.users.find? (resetTokenMatches resetToken now) with
    | none => (.error "This token is either invalid or expired!", st)
    | some user =>
      let newHash := hash password
      let upd := fun (u : User) =>
        if u.email == user.email then
          { u with password := newHash, resetToken := none, resetTokenExpiry := none }
        else u
      (.ok (upd user), { st with users := st.users.map upd })

/-- `updatePermissions`: requires a session, loads the current user (a crash if
the row is gone), gates on the any-of permission check, then overwrites the
target user's permission set. -/
def updatePermissions (ctx : Ctx) (targetUserId : Nat) (perms : List String)
    (st : Store) : Except String User × Store :=
  match ctx.userId? with
  | none => (.error "You must be logged in!", st)
  | some uid =>
    match st.users.find? (fun u => u.id == uid) with
    | none => (.error "TypeError", st)
    | some currentUser =>
      match hasPermission currentUser ["ADMIN", "PERMISSIONUPDATE"] with
      | .error e => (.error e, st)
      | .ok _ =>
        match st.users.find? (fun u => u.id == targetUserId) with
        | none => (.error "User not found", st)
        | some target =>
          let target' := { target with permissions := perms }
          (.ok target',
           { st with users := st.users.map (fun u => if u.id == targetUserId then target' else u) })

/-- `addToCart`: requires a session; looks for an existing cart row for
(user, item); when found, increments its quantity by one; otherwise creates a
fresh row connected to the user and the item.  The created row's quantity
defaults to 1 — modelled from the spec: the store's data model (not among the
provided sources) supplies the CartItem `quantity` default of 1, per §4.3
"creates a new CartItem with quantity 1". -/
def addToCart (ctx : Ctx) (itemId : Nat) (st : Store) : Except String CartItem × Store :=
  match ctx.userId? with
  | none => (.error "You must be logged in!", st)
  | some userId =>
    match st.cartItems.find? (fun ci => ci.userId == userId && ci.itemId == itemId) with
    | some existingCartItem =>
      let updated := { existingCartItem with quantity := existingCartItem.quantity + 1 }
      (.ok updated,
       { st with cartItems := st.cartItems.map (fun ci =>
           if ci.id == existingCartItem.id then updated else ci) })
    | none =>
      let created : CartItem := { id := st.nextId, userId := userId, itemId := itemId, quantity := 1 }
      (.ok created, { st with cartItems := st.cartItems ++ [created], nextId := st.nextId + 1 })

/-- `removeFromCart`: loads the cart row (not-found error when absent), rejects
when the row's owner is not the session user, otherwise deletes the row. -/
def removeFromCart (ctx : Ctx) (cartItemId : Nat) (st : Store) :
    Except String CartItem × Store :=
  match st.cartItems.find? (fun ci => ci.id == cartItemId) with
  | none => (.error "No CartItem Found!", st)
  | some cartItem =>
    if some cartItem.userId ≠ ctx.userId? then
      (.error "Operation unallowed", st)
    else
      (.ok cartItem, { st with cartItems := st.cartItems.filter (fun ci => !(ci.id == cartItemId)) })

/-- The cart portion of `createOrder`'s nested user query: the user's cart rows
each joined to their item.  `none` when some cart row references an absent item
(the join would yield a null `item` and the resolver would crash on it). -/
def resolveCart (st : Store) (userId : Nat) : Option (List (CartItem × Item)) :=
  (st.cartItems.filter (fun ci => ci.userId == userId)).mapM
    (fun ci => (st.items.find? (fun it => it.id == ci.itemId)).map (fun it => (ci, it)))

/-- Step 2 of checkout: `user.cart.reduce((tally, ci) => tally + ci.item.price * ci.quantity, 0)`. -/
def cartAmount (cart : List (CartItem × Item)) : Int :=
  cart.foldl (fun tally p => tally + p.2.price * p.1.quantity) 0

/-- Step 4 of checkout: each cart row becomes an order line copying the item's
fields, with the live item's id deleted and the quantity attached. -/
def orderItemsOf (userId : Nat) (cart : List (CartItem × Item)) : List OrderItem :=
  cart.map (fun p =>
    { title := p.2.title, price := p.2.price, description := p.2.description,
      image := p.2.image, largeImage := p.2.largeImage,
      quantity := p.1.quantity, userId := userId })

/-- `createOrder`: requires a session; snapshots the user's cart; charges the
gateway with the reduced amount, currency `"USD"` and the supplied source
token (a gateway error propagates with the store untouched); persists an order
whose `total` is the charge's returned amount and whose `charge` is its id;
finally deletes exactly the cart rows whose ids were in the snapshot
(`deleteManyCartItems` with `id_in`). -/
def createOrder (ctx : Ctx) (token : String)
    (gateway : Int → String → String → Except String Charge)
    (st : Store) : Except String Order × Store :=
  match ctx.userId? with
  | none => (.error "You must be signed in to complete this order.", st)
  | some userId =>
    match st.users.find? (fun u => u.id == userId) with
    | none => (.error "TypeError", st)
    | some _user =>
      match resolveCart st userId with
      | none => (.error "TypeError", st)
      | some cart =>
        let amount := cartAmount cart
        match gateway amount "USD" token with
        | .error e => (.error e, st)
        | .ok charge =>
          let order : Order :=
            { id := st.nextId, total := charge.amount, charge := charge.id,
              items := orderItemsOf userId cart, userId := userId }
          let st1 := { st with orders := st.orders ++ [order], nextId := st.nextId + 1 }
          let cartItemIds := cart.map (fun p => p.1.id)
          let st2 := { st1 with cartItems :=
            st1.cartItems.filter (fun ci => !(cartItemIds.contains ci.id)) }
          (.ok order, st2)

end Mutations

namespace Query

/-- The `me` query: `null` (not an error) when there is no session userId,
otherwise the user row for it (itself possibly `null`). -/
def me (ctx : Ctx) (st : Store) : Option User :=
  match ctx.userId? with
  | none => none
  | some uid => st.users.find? (fun u => u.id == uid)

/-- The `users` query: throws when unauthenticated, gates on the any-of
permission check, then returns every user. -/
def users (ctx : Ctx) (st : Store) : Except String (List User) :=
  match ctx.userId? with
  | none => .error "You need to login!"
  | some _ =>
    match ctx.user? with
    | none => .error "TypeError"
    | some cu =>
      match hasPermission cu ["ADMIN", "PERMISSIONUPDATE"] with
      | .error e => .error e
      | .ok _ => .ok st.users

/-- The `order` query: throws when unauthenticated, loads the order (crashing
on a missing row), computes ownership and the admin check (the latter crashes
when the request user is absent), and rejects non-owner non-admins. -/
def order (ctx : Ctx) (orderId : Nat) (st : Store) : Except String Order :=
  match ctx.userId? with
  | none => .error "You need to login!"
  | some uid =>
    match st.orders.find? (fun o => o.id == orderId) with
    | none => .error "TypeError"
    | some o =>
      match ctx.user? with
      | none => .error "TypeError"
      | some cu =>
        let ownsOrder : Bool := o.userId == uid
        let isAdmin : Bool := cu.permissions.contains "ADMIN"
        if !ownsOrder && !isAdmin then .error "You don't have permission"
        else .ok o

/-- The `orders` query: throws when unauthenticated, then returns the session
user's orders. -/
def orders (ctx : Ctx) (st : Store) : Except String (List Order) :=
  match ctx.userId? with
  | none => .error "you must be signed in!"
  | some uid => .ok (st.orders.filter (fun o => o.userId == uid))

end Query

/-! ## Shared invariants and helper lemmas -/

/-- No two distinct cart rows share both the user and the item ("at most one
CartItem per (user, item) pair"). -/
def pairwiseDistinctPairs (l : List CartItem) : Prop :=
  List.Pairwise (fun a b => ¬(a.userId = b.userId ∧ a.itemId = b.itemId)) l

/-- Store well-formedness for the cart: row ids are pairwise distinct, every
row id is below the fresh-id counter, and the (user, item) pairs are pairwise
distinct. -/
def cartWF (st : Store) : Prop :=
  List.Pairwise (fun a b => a.id ≠ b.id) st.cartItems
  ∧ (∀ ci ∈ st.cartItems, ci.id < st.nextId)
  ∧ pairwiseDistinctPairs st.cartItems

/-- An unauthenticated request context: the middleware populated neither the
userId nor the user. -/
def anonCtx : Ctx := { userId? := none, user? := none }

lemma find?_append_left_none {α : Type} (p : α → Bool) (l₁ l₂ : List α)
    (h : l₁.find? p = none) : (l₁ ++ l₂).find? p = l₂.find? p := by
  induction l₁ with
  | nil => rfl
  | cons x xs ih =>
    rw [List.find?_eq_none] at h
    have hx : p x = false := by
      have := h x (by simp)
      simpa using this
    rw [List.cons_append, List.find?_cons, hx]
    exact ih (by rw [List.find?_eq_none]; intro a ha; exact h a (by simp [ha]))

lemma foldl_amount (l : List (CartItem × Item)) (a : Int) :
    l.foldl (fun tally p => tally + p.2.price * p.1.quantity) a
      = a + (l.map (fun p => p.2.price * p.1.quantity)).sum := by
  induction l generalizing a with
  | nil => simp
  | cons x xs ih => simp [List.foldl_cons, ih, add_assoc]

lemma cartAmount_eq_sum (cart : List (CartItem × Item)) :
    Mutations.cartAmount cart = (cart.map (fun p => p.2.price * p.1.quantity)).sum := by
  simpa using foldl_amount cart 0

/-! ## Concrete fixtures used by witnesses and counterexamples -/

/-- A concrete stand-in for the bcrypt hash in witnesses. -/
def hash0 : String → String := fun s => "H" ++ s

/-- A gateway that captures exactly the requested amount. -/
def gwOk : Int → String → String → Except String Charge :=
  fun amount _ _ => .ok { id := "ch_1", amount := amount }

/-- A gateway whose charge call fails. -/
def gwDecline : Int → String → String → Except String Charge :=
  fun _ _ _ => .error "Your card was declined"

def amy : User :=
  { id := 7, email := "amy@example.com", password := "Hpw", permissions := ["USER"],
    resetToken := some "r0", resetTokenExpiry := some 7200000 }

def itemHat : Item :=
  { id := 1, title := "hat", price := 1000, description := "d", image := "i",
    largeImage := "l", userId := 7 }

def cartRow : CartItem := { id := 2, userId := 7, itemId := 1, quantity := 1 }

def stAuth : Store :=
  { users := [amy], items := [itemHat], cartItems := [cartRow], orders := [], nextId := 3 }

def carol : User :=
  { id := 1, email := "carol@example.com", password := "Hpw", permissions := ["USER"],
    resetToken := none, resetTokenExpiry := none }

def itemA : Item :=
  { id := 10, title := "A", price := 1000, description := "dA", image := "iA",
    largeImage := "lA", userId := 1 }

def itemB : Item :=
  { id := 11, title := "B", price := 500, description := "dB", image := "iB",
    largeImage := "lB", userId := 1 }

def rowA : CartItem := { id := 2, userId := 1, itemId := 10, quantity := 2 }

def rowB : CartItem := { id := 3, userId := 1, itemId := 11, quantity := 1 }

/-- A cart row belonging to a different user: it is outside user 1's checkout
snapshot and must survive user 1's checkout. -/
def rowOther : CartItem := { id := 99, userId := 2, itemId := 10, quantity := 1 }

def stCheckout : Store :=
  { users := [carol], items := [itemA, itemB], cartItems := [rowA, rowB, rowOther],
    orders := [], nextId := 100 }

/-- User 1's cart snapshot in `stCheckout`, as `resolveCart` computes it. -/
def cartSnapshot : List (CartItem × Item) := [(rowA, itemA), (rowB, itemB)]

def stReset : Store :=
  { users := [{ id := 8, email := "bob@example.com", password := "Hpw",
                permissions := ["USER"], resetToken := none, resetTokenExpiry := none }],
    items := [], cartItems := [], orders := [], nextId := 9 }

def stLower : Store :=
  { users := [{ id := 4, email := "foo@bar.com", password := "Hp",
                permissions := ["USER"], resetToken := none, resetTokenExpiry := none }],
    items := [], cartItems := [], orders := [], nextId := 5 }

def stEmpty : Store :=
  { users := [], items := [], cartItems := [], orders := [], nextId := 0 }

/-! ## Claim theorems -/

/-- Claim C1: for every checkout with an authenticated user whose cart snapshot
resolves to `cart`, the amount handed to the payment gateway is the snapshot's
Σ(item.price × quantity) in integer minor units with currency `"USD"` (the
gateway is an arbitrary function and is only constrained at exactly that call
point), and the persisted Order's `total` is the gateway's returned captured
amount `charge.amount`, not the locally computed sum. -/
theorem createOrder_amount_and_total (uid : Nat) (tok : String) (u? : Option User)
    (g : Int → String → String → Except String Charge) (st : Store)
    (user : User) (cart : List (CartItem × Item)) (charge : Charge)
    (hu : st.users.find? (fun u => u.id == uid) = some user)
    (hc : Mutations.resolveCart st uid = some cart)
    (hg : g (Mutations.cartAmount cart) "USD" tok = .ok charge) :
    Mutations.cartAmount cart = (cart.map (fun p => p.2.price * p.1.quantity)).sum
    ∧ (Mutations.createOrder { userId? := some uid, user? := u? } tok g st).1 =
        .ok { id := st.nextId, total := charge.amount, charge := charge.id,
              items := Mutations.orderItemsOf uid cart, userId := uid } := by
  refine ⟨cartAmount_eq_sum cart, ?_⟩
  unfold Mutations.createOrder
  dsimp only
  rw [hu]
  dsimp only
  rw [hc]
  dsimp only
  rw [hg]

theorem createOrder_amount_and_total_witness :
    Mutations.cartAmount cartSnapshot = 2500
    ∧ (Mutations.createOrder { userId? := some 1, user? := some carol } "stok" gwOk stCheckout).1
        = .ok { id := 100, total := 2500, charge := "ch_1",
                items := Mutations.orderItemsOf 1 cartSnapshot, userId := 1 } := by
  have h := createOrder_amount_and_total 1 "stok" (some carol) gwOk stCheckout carol
    cartSnapshot { id := "ch_1", amount := 2500 } rfl rfl rfl
  exact ⟨by rfl, h.2⟩

/-- Claim C2: when the gateway's charge call fails, `createOrder` aborts with
the gateway's own error and the store is exactly as before the call — in
particular no Order row is added and the user's CartItem rows are untouched. -/
theorem createOrder_gateway_failure (uid : Nat) (tok e : String) (u? : Option User)
    (g : Int → String → String → Except String Charge) (st : Store)
    (user : User) (cart : List (CartItem × Item))
    (hu : st.users.find? (fun u => u.id == uid) = some user)
    (hc : Mutations.resolveCart st uid = some cart)
    (hg : g (Mutations.cartAmount cart) "USD" tok = .error e) :
    Mutations.createOrder { userId? := some uid, user? := u? } tok g st = (.error e, st)
    ∧ (Mutations.createOrder { userId? := some uid, user? := u? } tok g st).2.orders = st.orders
    ∧ (Mutations.createOrder { userId? := some uid, user? := u? } tok g st).2.cartItems
        = st.cartItems := by
  have h : Mutations.createOrder { userId? := some uid, user? := u? } tok g st = (.error e, st) := by
    unfold Mutations.createOrder
    dsimp only
    rw [hu]
    dsimp only
    rw [hc]
    dsimp only
    rw [hg]
  exact ⟨h, by rw [h], by rw [h]⟩

theorem createOrder_gateway_failure_witness :
    Mutations.createOrder { userId? := some 1, user? := some carol } "stok" gwDecline stCheckout
      = (.error "Your card was declined", stCheckout) := by
  have h := createOrder_gateway_failure 1 "stok" "Your card was declined" (some carol)
    gwDecline stCheckout carol cartSnapshot rfl rfl rfl
  exact h.1

/-- Claim C9: after a successful checkout, a cart row is in the resulting store
iff it was there before and its id is NOT among the ids captured in the cart
snapshot: the deletion is an id-in-set deletion over the snapshotted ids, so a
row outside the snapshot (e.g. added after it was taken) is never deleted. -/
theorem createOrder_clears_exactly_snapshot (uid : Nat) (tok : String) (u? : Option User)
    (g : Int → String → String → Except String Charge) (st : Store)
    (user : User) (cart : List (CartItem × Item)) (charge : Charge)
    (hu : st.users.find? (fun u => u.id == uid) = some user)
    (hc : Mutations.resolveCart st uid = some cart)
    (hg : g (Mutations.cartAmount cart) "USD" tok = .ok charge) :
    ∀ ci : CartItem,
      ci ∈ (Mutations.createOrder { userId? := some uid, user? := u? } tok g st).2.cartItems ↔
        (ci ∈ st.cartItems ∧ ci.id ∉ cart.map (fun p => p.1.id)) := by
  intro ci
  have h : (Mutations.createOrder { userId? := some uid, user? := u? } tok g st).2.cartItems
      = st.cartItems.filter (fun c => !((cart.map (fun p => p.1.id)).contains c.id)) := by
    unfold Mutations.createOrder
    dsimp only
    rw [hu]
    dsimp only
    rw [hc]
    dsimp only
    rw [hg]
  rw [h, List.mem_filter]
  simp

theorem createOrder_clears_exactly_snapshot_witness :
    rowOther ∈ (Mutations.createOrder { userId? := some 1, user? := some carol }
        "stok" gwOk stCheckout).2.cartItems
    ∧ rowA ∉ (Mutations.createOrder { userId? := some 1, user? := some carol }
        "stok" gwOk stCheckout).2.cartItems := by
  have h := createOrder_clears_exactly_snapshot 1 "stok" (some carol) gwOk stCheckout carol
    cartSnapshot { id := "ch_1", amount := 2500 } rfl rfl rfl
  constructor
  · exact (h rowOther).mpr ⟨by decide, by decide⟩
  · exact fun hmem => ((h rowA).mp hmem).2 (by decide)

/-- Claim C3: from a state with no cart row for (user `u`, item `i`) and a
fresh id counter, two sequential `addToCart` calls leave exactly one cart row
for that pair, with quantity 2 — never two rows — and a single `addToCart`
call on any well-formed store preserves the at-most-one-CartItem-per-
(user, item) invariant (incrementing the existing row's quantity when one
matches, creating a quantity-1 row otherwise). -/
theorem addToCart_merge_and_invariant (u i : Nat) (u? : Option User) (st : Store)
    (h1 : ∀ ci ∈ st.cartItems, ¬(ci.userId = u ∧ ci.itemId = i))
    (h2 : ∀ ci ∈ st.cartItems, ci.id ≠ st.nextId) :
    ((Mutations.addToCart { userId? := some u, user? := u? } i
        (Mutations.addToCart { userId? := some u, user? := u? } i st).2).2.cartItems
       = st.cartItems ++ [{ id := st.nextId, userId := u, itemId := i, quantity := 2 }]
     ∧ (Mutations.addToCart { userId? := some u, user? := u? } i
        (Mutations.addToCart { userId? := some u, user? := u? } i st).2).2.cartItems.filter
          (fun ci => ci.userId == u && ci.itemId == i)
       = [{ id := st.nextId, userId := u, itemId := i, quantity := 2 }])
    ∧ (∀ st' : Store, cartWF st' →
        cartWF (Mutations.addToCart { userId? := some u, user? := u? } i st').2) := by
  have hfind1 : st.cartItems.find? (fun ci => ci.userId == u && ci.itemId == i) = none := by
    rw [List.find?_eq_none]
    intro ci hci
    simpa using h1 ci hci
  have e1 : (Mutations.addToCart { userId? := some u, user? := u? } i st).2
      = { st with
          cartItems := st.cartItems ++ [{ id := st.nextId, userId := u, itemId := i, quantity := 1 }],
          nextId := st.nextId + 1 } := by
    unfold Mutations.addToCart
    dsimp only
    rw [hfind1]
  have hfind2 : (st.cartItems
        ++ [({ id := st.nextId, userId := u, itemId := i, quantity := 1 } : CartItem)]).find?
      (fun ci => ci.userId == u && ci.itemId == i)
      = some ({ id := st.nextId, userId := u, itemId := i, quantity := 1 } : CartItem) := by
    rw [find?_append_left_none _ _ _ hfind1]
    simp [List.find?]
  have e2 : (Mutations.addToCart { userId? := some u, user? := u? } i
      (Mutations.addToCart { userId? := some u, user? := u? } i st).2).2.cartItems
      = st.cartItems ++ [{ id := st.nextId, userId := u, itemId := i, quantity := 2 }] := by
    rw [e1]
    unfold Mutations.addToCart
    dsimp only
    rw [hfind2]
    dsimp only
    rw [List.map_append]
    congr 1
    · refine (List.map_congr_left ?_).trans (List.map_id' st.cartItems)
      intro a ha
      have hne : (a.id == st.nextId) = false := by simpa using h2 a ha
      simp [hne]
    · norm_num
  refine ⟨⟨e2, ?_⟩, ?_⟩
  · rw [e2, List.filter_append]
    have hnil : st.cartItems.filter (fun ci => ci.userId == u && ci.itemId == i) = [] := by
      rw [List.filter_eq_nil_iff]
      intro ci hci
      simpa using h1 ci hci
    rw [hnil]
    simp
  · intro st' hwf
    obtain ⟨hids, hlt, hpairs⟩ := hwf
    unfold Mutations.addToCart
    dsimp only
    cases hfind : st'.cartItems.find? (fun ci => ci.userId == u && ci.itemId == i) with
    | none =>
      dsimp only
      refine ⟨?_, ?_, ?_⟩
      · rw [List.pairwise_append]
        refine ⟨hids, by simp, ?_⟩
        intro a ha b hb
        simp only [List.mem_singleton] at hb
        subst hb
        exact Nat.ne_of_lt (hlt a ha)
      · intro ci hci
        rcases List.mem_append.mp hci with h | h
        · exact Nat.lt_trans (hlt ci h) (Nat.lt_succ_self _)
        · simp only [List.mem_singleton] at h
          subst h
          exact Nat.lt_succ_self _
      · unfold pairwiseDistinctPairs at hpairs ⊢
        rw [List.pairwise_append]
        refine ⟨hpairs, by simp, ?_⟩
        intro a ha b hb
        simp only [List.mem_singleton] at hb
        subst hb
        have := List.find?_eq_none.mp hfind a ha
        simpa using this
    | some ex =>
      dsimp only
      have huniq : ∀ a ∈ st'.cartItems, ∀ b ∈ st'.cartItems, a.id = b.id → a = b := by
        intro a ha b hb hid
        by_contra hne
        have hsym : Symmetric (fun a b : CartItem => a.id ≠ b.id) := fun a b h he => h he.symm
        exact (hids.forall hsym ha hb hne) hid
      have hpres : ∀ ci ∈ st'.cartItems,
          ((if ci.id == ex.id then { ex with quantity := ex.quantity + 1 } else ci).id = ci.id
           ∧ (if ci.id == ex.id then { ex with quantity := ex.quantity + 1 } else ci).userId
               = ci.userId
           ∧ (if ci.id == ex.id then { ex with quantity := ex.quantity + 1 } else ci).itemId
               = ci.itemId) := by
        intro ci hci
        by_cases h : ci.id = ex.id
        · have hci_ex : ci = ex := huniq ci hci ex (List.mem_of_find?_eq_some hfind) h
          subst hci_ex
          simp
        · simp [h]
      refine ⟨?_, ?_, ?_⟩
      · rw [List.pairwise_map]
        refine hids.imp_of_mem ?_
        intro a b ha hb hab
        rw [(hpres a ha).1, (hpres b hb).1]
        exact hab
      · intro x hx
        obtain ⟨a, ha, rfl⟩ := List.mem_map.mp hx
        rw [(hpres a ha).1]
        exact hlt a ha
      · unfold pairwiseDistinctPairs at hpairs ⊢
        rw [List.pairwise_map]
        refine hpairs.imp_of_mem ?_
        intro a b ha hb hab
        rw [(hpres a ha).2.1, (hpres a ha).2.2, (hpres b hb).2.1, (hpres b hb).2.2]
        exact hab

theorem addToCart_merge_and_invariant_witness :
    (Mutations.addToCart { userId? := some 1, user? := none } 5
      (Mutations.addToCart { userId? := some 1, user? := none } 5 stEmpty).2).2.cartItems
      = [{ id := 0, userId := 1, itemId := 5, quantity := 2 }] := by
  have h := addToCart_merge_and_invariant 1 5 none stEmpty (by decide) (by decide)
  exact h.1.1

/-- Claim C4, counterexample: a reset token issued by `requestReset` at time 0
is stored with expiry 3600000 (1 hour later), yet `resetPassword` called with
it at time 5400000 — strictly more than 1 hour after issuance and strictly
after the stored expiry — SUCCEEDS, because the lookup accepts any stored
expiry ≥ now − 1 hour.  This falsifies the claim that such a call fails with
the invalid-or-expired error. -/
theorem resetPassword_succeeds_after_stored_expiry :
    (Mutations.requestReset "bob@example.com" "tok9" 0 stReset).2.users.map User.resetTokenExpiry
        = [some 3600000]
    ∧ ((3600000 : Int) < 5400000)
    ∧ exceptOk (Mutations.resetPassword "tok9" "npw" "npw" hash0 5400000
        (Mutations.requestReset "bob@example.com" "tok9" 0 stReset).2).1 = true :=
  ⟨rfl, by decide, rfl⟩

/-- Claim C4, amended: for a token freshly issued by `requestReset` at time
`t0` (stored expiry `t0 + 1 hour`), `resetPassword` with matching passwords
succeeds iff `now ≤ t0 + 2 hours` — the lookup accepts a stored expiry
≥ now − 1 hour, so the real acceptance window is two hours after issuance,
not one — and strictly after that two-hour window it fails with the
invalid-or-expired error with the store unchanged. -/
theorem resetPassword_two_hour_window (email tok pw : String) (hash : String → String)
    (t0 now : Int) (st : Store)
    (hfresh : ∀ u ∈ st.users, u.resetToken ≠ some tok)
    (hreq : exceptOk (Mutations.requestReset email tok t0 st).1 = true) :
    (exceptOk (Mutations.resetPassword tok pw pw hash now
        (Mutations.requestReset email tok t0 st).2).1 = true
      ↔ now ≤ t0 + 7200000)
    ∧ (t0 + 7200000 < now →
        Mutations.resetPassword tok pw pw hash now (Mutations.requestReset email tok t0 st).2
          = (.error "This token is either invalid or expired!",
             (Mutations.requestReset email tok t0 st).2)) := by
  cases hfind : st.users.find? (fun u => u.email == email) with
  | none =>
    have : Mutations.requestReset email tok t0 st
        = (.error ("No such user found for email " ++ email), st) := by
      unfold Mutations.requestReset
      rw [hfind]
    rw [this] at hreq
    simp [exceptOk] at hreq
  | some u0 =>
    have e1 : (Mutations.requestReset email tok t0 st).2
        = { st with users := st.users.map (fun u =>
            if u.email == email then
              { u with resetToken := some tok, resetTokenExpiry := some (t0 + 3600000) }
            else u) } := by
      unfold Mutations.requestReset
      rw [hfind]
    have hmem_iff : (∃ x ∈ st.users.map (fun u =>
          if u.email == email then
            { u with resetToken := some tok, resetTokenExpiry := some (t0 + 3600000) }
          else u), Mutations.resetTokenMatches tok now x = true) ↔ now ≤ t0 + 7200000 := by
      constructor
      · rintro ⟨x, hx, hmatch⟩
        obtain ⟨v, hv, rfl⟩ := List.mem_map.mp hx
        by_cases hve : v.email = email
        · have hbe : (v.email == email) = true := by simp [hve]
          rw [if_pos hbe] at hmatch
          unfold Mutations.resetTokenMatches at hmatch
          simp at hmatch
          omega
        · have hbe : (v.email == email) = false := by simp [hve]
          rw [if_neg (by simp [hbe])] at hmatch
          unfold Mutations.resetTokenMatches at hmatch
          rw [Bool.and_eq_true] at hmatch
          have htok : v.resetToken = some tok := by
            have := hmatch.1
            simpa using this
          exact absurd htok (hfresh v hv)
      · intro hle
        have hu0mem : u0 ∈ st.users := List.mem_of_find?_eq_some hfind
        have hu0e : (u0.email == email) = true := by simpa using List.find?_some hfind
        refine ⟨_, List.mem_map_of_mem _ hu0mem, ?_⟩
        rw [if_pos hu0e]
        unfold Mutations.resetTokenMatches
        simp
        omega
    cases hfind2 : (Mutations.requestReset email tok t0 st).2.users.find?
        (Mutations.resetTokenMatches tok now) with
    | none =>
      have e3 : Mutations.resetPassword tok pw pw hash now
          (Mutations.requestReset email tok t0 st).2
          = (.error "This token is either invalid or expired!",
             (Mutations.requestReset email tok t0 st).2) := by
        unfold Mutations.resetPassword
        rw [if_neg (by simp), hfind2]
      refine ⟨?_, fun _ => e3⟩
      rw [e3]
      constructor
      · intro h
        simp [exceptOk] at h
      · intro hle
        exfalso
        rw [e1] at hfind2
        obtain ⟨x, hx, hmatch⟩ := hmem_iff.mpr hle
        have := List.find?_eq_none.mp hfind2 x hx
        exact absurd hmatch (by simpa using this)
    | some user =>
      have e3 : exceptOk (Mutations.resetPassword tok pw pw hash now
          (Mutations.requestReset email tok t0 st).2).1 = true := by
        unfold Mutations.resetPassword
        rw [if_neg (by simp), hfind2]
        rfl
      have hle : now ≤ t0 + 7200000 := by
        rw [e1] at hfind2
        exact hmem_iff.mp ⟨user, List.mem_of_find?_eq_some hfind2, List.find?_some hfind2⟩
      refine ⟨⟨fun _ => hle, fun _ => e3⟩, ?_⟩
      intro hgt
      omega

theorem resetPassword_two_hour_window_witness :
    exceptOk (Mutations.resetPassword "tw" "p" "p" hash0 5400000
        (Mutations.requestReset "bob@example.com" "tw" 0 stReset).2).1 = true := by
  have h := resetPassword_two_hour_window "bob@example.com" "tw" "p" hash0 0 5400000 stReset
    (by decide) (by rfl)
  exact h.1.mpr (by decide)

/-- Claim C5: when the new password and its confirmation differ,
`resetPassword` fails with the passwords-don't-match error and the store is
returned exactly as it was — no user row, stored token, or expiry changes, so
the token is not consumed. -/
theorem resetPassword_mismatch_no_effect (tok pw cpw : String) (hash : String → String)
    (now : Int) (st : Store) (h : pw ≠ cpw) :
    Mutations.resetPassword tok pw cpw hash now st = (.error "Passwords don't match!", st) := by
  unfold Mutations.resetPassword
  rw [if_pos h]

theorem resetPassword_mismatch_no_effect_witness :
    Mutations.resetPassword "rt" "a" "b" hash0 0 stReset
      = (.error "Passwords don't match!", stReset) :=
  resetPassword_mismatch_no_effect "rt" "a" "b" hash0 0 stReset (by decide)

/-- Claim C6: for an authenticated actor and an existing item, `deleteItem`
deletes the item iff the actor owns it OR the actor's permission set meets
{ADMIN, ITEMDELETE} (any-of); otherwise it fails with the forbidden error and
the store — hence the item — is unchanged. -/
theorem deleteItem_owner_or_permission (uid itemId : Nat) (cu : User) (st : Store) (item : Item)
    (hfind : st.items.find? (fun it => it.id == itemId) = some item) :
    ((item.userId = uid ∨ ∃ p ∈ cu.permissions, p = "ADMIN" ∨ p = "ITEMDELETE") →
        Mutations.deleteItem { userId? := some uid, user? := some cu } itemId st =
          (.ok item, { st with items := st.items.filter (fun it => !(it.id == itemId)) }))
    ∧ (¬(item.userId = uid ∨ ∃ p ∈ cu.permissions, p = "ADMIN" ∨ p = "ITEMDELETE") →
        Mutations.deleteItem { userId? := some uid, user? := some cu } itemId st =
          (.error "You don't have permissions", st)) := by
  have hcond : ∀ b : Bool,
      ((!((some uid : Option Nat) == some item.userId)
        && !(cu.permissions.any fun permission => ["ADMIN", "ITEMDELETE"].contains permission))
        = b) →
      Mutations.deleteItem { userId? := some uid, user? := some cu } itemId st =
        (if b then (.error "You don't have permissions", st)
         else (.ok item, { st with items := st.items.filter (fun it => !(it.id == itemId)) })) := by
    intro b hb
    unfold Mutations.deleteItem
    rw [hfind]
    dsimp only
    rw [hb]
  constructor
  · intro hgate
    have hb : (!((some uid : Option Nat) == some item.userId)
        && !(cu.permissions.any fun permission => ["ADMIN", "ITEMDELETE"].contains permission))
        = false := by
      rcases hgate with h | ⟨p, hp, hpe⟩
      · simp [h]
      · simp only [Bool.and_eq_false_iff]
        right
        simp only [Bool.not_eq_false', List.any_eq_true]
        exact ⟨p, hp, by rcases hpe with h | h <;> simp [h]⟩
    simpa using hcond false hb
  · intro hgate
    push_neg at hgate
    obtain ⟨h1, h2⟩ := hgate
    have hb : (!((some uid : Option Nat) == some item.userId)
        && !(cu.permissions.any fun permission => ["ADMIN", "ITEMDELETE"].contains permission))
        = true := by
      simp only [Bool.and_eq_true, Bool.not_eq_true']
      constructor
      · simp only [beq_eq_false_iff_ne, ne_eq, Option.some.injEq]
        exact fun hh => h1 hh.symm
      · simp only [List.any_eq_false]
        intro p hp
        have := h2 p hp
        simp_all
    simpa using hcond true hb

theorem deleteItem_owner_or_permission_witness :
    Mutations.deleteItem { userId? := some 7, user? := some amy } 1 stAuth
      = (.ok itemHat,
         { stAuth with items := stAuth.items.filter (fun it => !(it.id == 1)) }) :=
  (deleteItem_owner_or_permission 7 1 amy stAuth itemHat rfl).1 (Or.inl rfl)

/-- Claim C7, counterexample: `updateItem` invoked with no authenticated
userId does not fail with an unauthenticated error — it performs the store
write and returns the updated item, so the claim that every listed mutating
operation rejects an unauthenticated caller before any store access is false. -/
theorem updateItem_unauthenticated_write :
    (Mutations.updateItem anonCtx 1 { title := some "hacked" } stAuth).1
        = .ok (Mutations.applyUpdates { title := some "hacked" } itemHat)
    ∧ (Mutations.updateItem anonCtx 1 { title := some "hacked" } stAuth).2 ≠ stAuth :=
  ⟨rfl, by decide⟩

/-- Claim C7, amended: of the listed operations only `createItem`,
`updatePermissions`, `addToCart` and checkout (`createOrder`) reject a caller
with no authenticated userId before any store access.  `updateItem` performs
the update with no authentication check at all; `removeFromCart` rejects the
unauthenticated caller only after reading the cart row, and with the forbidden
("Operation unallowed") error rather than an unauthenticated one; `deleteItem`
reads the item and then crashes on the absent request user instead of checking
the session; `requestReset` and `resetPassword` take no session and proceed
for unauthenticated callers. -/
theorem authentication_check_coverage (st : Store)
    (title desc img limg : String) (price : Int) (upd : ItemUpdates)
    (itemId targetId cartItemId : Nat) (perms : List String)
    (tok email rtok pw : String) (now : Int) (hash : String → String)
    (g : Int → String → String → Except String Charge)
    (it : Item) (ci : CartItem) (u0 uR : User)
    (hit : st.items.find? (fun j => j.id == itemId) = some it)
    (hci : st.cartItems.find? (fun c => c.id == cartItemId) = some ci)
    (hu0 : st.users.find? (fun u => u.email == email) = some u0)
    (huR : st.users.find? (Mutations.resetTokenMatches rtok now) = some uR) :
    Mutations.createItem anonCtx title desc img limg price st = (.error "You need to login", st)
    ∧ Mutations.updatePermissions anonCtx targetId perms st = (.error "You must be logged in!", st)
    ∧ Mutations.addToCart anonCtx itemId st = (.error "You must be logged in!", st)
    ∧ Mutations.createOrder anonCtx tok g st
        = (.error "You must be signed in to complete this order.", st)
    ∧ (Mutations.updateItem anonCtx itemId upd st).1 = .ok (Mutations.applyUpdates upd it)
    ∧ Mutations.removeFromCart anonCtx cartItemId st = (.error "Operation unallowed", st)
    ∧ Mutations.deleteItem anonCtx itemId st = (.error "TypeError", st)
    ∧ exceptOk (Mutations.requestReset email rtok now st).1 = true
    ∧ exceptOk (Mutations.resetPassword rtok pw pw hash now st).1 = true := by
  refine ⟨rfl, rfl, rfl, rfl, ?_, ?_, ?_, ?_, ?_⟩
  · unfold Mutations.updateItem
    rw [hit]
  · unfold Mutations.removeFromCart
    rw [hci]
    dsimp only
    rw [if_pos (by simp [anonCtx])]
  · unfold Mutations.deleteItem
    rw [hit]
    rfl
  · unfold Mutations.requestReset
    rw [hu0]
    rfl
  · unfold Mutations.resetPassword
    rw [if_neg (by simp), huR]
    rfl

theorem authentication_check_coverage_witness :
    Mutations.removeFromCart anonCtx 2 stAuth = (.error "Operation unallowed", stAuth) := by
  have h := authentication_check_coverage stAuth "t" "d" "i" "l" 5 {} 1 9 2 ["ADMIN"]
    "tok" "amy@example.com" "r0" "p" 0 hash0 gwOk itemHat cartRow amy amy rfl rfl rfl rfl
  exact h.2.2.2.2.2.1

/-- Claim C8, counterexample: `requestReset` does NOT lower-case the supplied
email before the lookup.  With one stored user whose email is
`"foo@bar.com"`, calling `requestReset` with `"Foo@Bar.com"` — whose
lower-casing is exactly the stored email — fails with the not-found error,
while the already-lower-case spelling succeeds. -/
theorem requestReset_ignores_lowercasing :
    (Mutations.requestReset "Foo@Bar.com" "t1" 0 stLower).1
        = .error "No such user found for email Foo@Bar.com"
    ∧ stLower.users.map User.email = ["foo@bar.com"]
    ∧ "Foo@Bar.com".data.map Char.toLower = "foo@bar.com".data
    ∧ exceptOk (Mutations.requestReset "foo@bar.com" "t1" 0 stLower).1 = true :=
  ⟨rfl, rfl, by decide, rfl⟩

/-- Claim C8, amended: `requestReset` uses the email exactly as supplied (no
lower-casing), and it fails with the not-found error while performing no
writes — the store is returned unchanged — exactly when no stored user's email
equals the supplied string verbatim. -/
theorem requestReset_exact_email_only (email tok : String) (now : Int) (st : Store) :
    (Mutations.requestReset email tok now st
        = (.error ("No such user found for email " ++ email), st))
    ↔ ∀ u ∈ st.users, u.email ≠ email := by
  cases hfind : st.users.find? (fun u => u.email == email) with
  | none =>
    have e : Mutations.requestReset email tok now st
        = (.error ("No such user found for email " ++ email), st) := by
      unfold Mutations.requestReset
      rw [hfind]
    constructor
    · intro _ u hu
      have := List.find?_eq_none.mp hfind u hu
      simpa using this
    · intro _
      exact e
  | some u0 =>
    have e : (Mutations.requestReset email tok now st).1 = .ok "Reset sent!" := by
      unfold Mutations.requestReset
      rw [hfind]
    constructor
    · intro h
      exfalso
      have := congrArg Prod.fst h
      rw [e] at this
      exact Except.noConfusion this
    · intro hall
      exfalso
      have hm : u0 ∈ st.users := List.mem_of_find?_eq_some hfind
      have he : (u0.email == email) = true := by simpa using List.find?_some hfind
      exact hall u0 hm (by simpa using he)

/-- Claim C10: the `me` query with no authenticated userId returns `null`
(it cannot raise an error — its result type carries none), in contrast to the
session-guarded queries `users`, `order` and `orders` (and guarded mutations
such as `createItem`), which all throw on a missing session. -/
theorem me_null_when_unauthenticated (u? : Option User) (st : Store) (orderId : Nat)
    (title desc img limg : String) (price : Int) :
    Query.me { userId? := none, user? := u? } st = none
    ∧ Query.users { userId? := none, user? := u? } st = .error "You need to login!"
    ∧ Query.order { userId? := none, user? := u? } orderId st = .error "You need to login!"
    ∧ Query.orders { userId? := none, user? := u? } st = .error "you must be signed in!"
    ∧ (Mutations.createItem { userId? := none, user? := u? } title desc img limg price st).1
        = .error "You need to login" :=
  ⟨rfl, rfl, rfl, rfl, rfl⟩
